import Mathlib

/-!
Verification of the hydroficient telemetry core: the sensor reading
generators of sensor_publisher.py and the anomaly classifier of
dashboard_subscriber.py, embedded shallowly.

Numeric values are modelled as rationals; Python round(x, 1) is modelled
as round-half-to-even at one decimal place.  Each random draw
random.uniform(a, b) is modelled as an explicit offset parameter, with
the range [a, b] imposed as a hypothesis where a claim needs it.  The
mutable reading counter self.count is modelled by explicit state passing.
Timestamps come from the datetime library and are modelled as an
uninterpreted string parameter.
-/

namespace Hydroficient

/-- Round half to even to the nearest integer, the tie-breaking rule of
the built-in round function of Python. -/
def round_half_even (x : ℚ) : ℤ :=
  if Int.fract x = 1 / 2 then (if 2 ∣ ⌊x⌋ then ⌊x⌋ else ⌊x⌋ + 1) else round x

/-- Python round(x, 1): round to one decimal place. -/
def round1 (x : ℚ) : ℚ := (round_half_even (10 * x) : ℚ) / 10

/-- A JSON scalar as it appears in the wire payload. -/
inductive JVal where
  | str (s : String)
  | int (n : ℕ)
  | num (q : ℚ)
deriving Repr, DecidableEq

/-- A generated reading.  The dict literals of the four generator methods
all carry device_id, timestamp, counter and the three measurements;
only get_reading additionally carries location (hence Option). -/
structure Reading where
  device_id : String
  location : Option String
  timestamp : String
  counter : ℕ
  pressure_upstream : ℚ
  pressure_downstream : ℚ
  flow_rate : ℚ
deriving Repr, DecidableEq

/-- The wire payload of a reading: the key/value pairs of the dict
literal that the generator method returns, in source order.  The
get_reading dict lists location second; the leak, blockage and stuck
dicts share one key order and have no location key. -/
def Reading.wire (r : Reading) : List (String × JVal) :=
  match r.location with
  | some loc =>
      [("device_id", .str r.device_id), ("location", .str loc),
       ("timestamp", .str r.timestamp), ("counter", .int r.counter),
       ("pressure_upstream", .num r.pressure_upstream),
       ("pressure_downstream", .num r.pressure_downstream),
       ("flow_rate", .num r.flow_rate)]
  | none =>
      [("device_id", .str r.device_id), ("counter", .int r.counter),
       ("timestamp", .str r.timestamp),
       ("pressure_upstream", .num r.pressure_upstream),
       ("pressure_downstream", .num r.pressure_downstream),
       ("flow_rate", .num r.flow_rate)]

/-- The WaterSensor object: identity fields, the reading counter and the
three baselines set by the constructor. -/
structure WaterSensor where
  device_id : String
  location : String
  count : ℕ
  pressure_upstream_base : ℚ
  pressure_downstream_base : ℚ
  flow_rate_base : ℚ
deriving Repr, DecidableEq

/-- WaterSensor.\_\_init\_\_: count starts at 0 and the baselines are the
hard-coded 82.0 / 76.0 / 40.0. -/
def WaterSensor.init (device_id location : String) : WaterSensor :=
  { device_id := device_id, location := location, count := 0,
    pressure_upstream_base := 82, pressure_downstream_base := 76,
    flow_rate_base := 40 }

/-- WaterSensor.get_reading: normal scenario.  uUp, uDown are the
uniform(-2, 2) draws and uFlow the uniform(-3, 3) draw. -/
def WaterSensor.get_reading (s : WaterSensor) (ts : String)
    (uUp uDown uFlow : ℚ) : WaterSensor × Reading :=
  let s' := { s with count := s.count + 1 }
  (s', { device_id := s.device_id, location := some s.location,
         timestamp := ts, counter := s'.count,
         pressure_upstream := round1 (s.pressure_upstream_base + uUp),
         pressure_downstream := round1 (s.pressure_downstream_base + uDown),
         flow_rate := round1 (s.flow_rate_base + uFlow) })

/-- WaterSensor.get_leak_reading: leak scenario.  uUp, uDown are the
uniform(-2, 2) draws and uFlow the uniform(40, 80) draw; the dict has
no location key. -/
def WaterSensor.get_leak_reading (s : WaterSensor) (ts : String)
    (uUp uDown uFlow : ℚ) : WaterSensor × Reading :=
  let s' := { s with count := s.count + 1 }
  (s', { device_id := s.device_id, location := none,
         timestamp := ts, counter := s'.count,
         pressure_upstream := round1 (s.pressure_upstream_base + uUp),
         pressure_downstream := round1 (s.pressure_downstream_base + uDown),
         flow_rate := round1 (s.flow_rate_base + uFlow) })

/-- WaterSensor.get_blockage_reading: blockage scenario.  uUp is the
uniform(8, 20) draw, uDown the uniform(-50, -20) draw and uFlow the
uniform(-3, 3) draw; the dict has no location key. -/
def WaterSensor.get_blockage_reading (s : WaterSensor) (ts : String)
    (uUp uDown uFlow : ℚ) : WaterSensor × Reading :=
  let s' := { s with count := s.count + 1 }
  (s', { device_id := s.device_id, location := none,
         timestamp := ts, counter := s'.count,
         pressure_upstream := round1 (s.pressure_upstream_base + uUp),
         pressure_downstream := round1 (s.pressure_downstream_base + uDown),
         flow_rate := round1 (s.flow_rate_base + uFlow) })

/-- WaterSensor.get_stuck_reading: a single uniform(-2, 2) draw u; all
three measurement fields carry the same rounded value; no location key. -/
def WaterSensor.get_stuck_reading (s : WaterSensor) (ts : String)
    (u : ℚ) : WaterSensor × Reading :=
  let s' := { s with count := s.count + 1 }
  let p := round1 (s.pressure_upstream_base + u)
  (s', { device_id := s.device_id, location := none,
         timestamp := ts, counter := s'.count,
         pressure_upstream := p, pressure_downstream := p, flow_rate := p })

/-- The closed set of generation scenarios. -/
inductive Scenario where
  | normal
  | leak
  | blockage
  | stuck
deriving Repr, DecidableEq

/-- Dispatch one generation call; the stuck scenario makes a single
draw and uses only u1. -/
def WaterSensor.generate (s : WaterSensor) (sc : Scenario) (ts : String)
    (u1 u2 u3 : ℚ) : WaterSensor × Reading :=
  match sc with
  | .normal => s.get_reading ts u1 u2 u3
  | .leak => s.get_leak_reading ts u1 u2 u3
  | .blockage => s.get_blockage_reading ts u1 u2 u3
  | .stuck => s.get_stuck_reading ts u1

/-- One generation call described by its scenario, timestamp and drawn
offsets. -/
structure GenCall where
  scenario : Scenario
  ts : String
  u1 : ℚ
  u2 : ℚ
  u3 : ℚ
deriving Repr, DecidableEq

/-- Run a sequence of generation calls against one sensor state,
threading the state, and collect the produced readings in order. -/
def runSeq (s : WaterSensor) : List GenCall → List Reading
  | [] => []
  | c :: cs =>
      let out := s.generate c.scenario c.ts c.u1 c.u2 c.u3
      out.2 :: runSeq out.1 cs

/-- The label attached by one threshold rule of display_reading. -/
inductive AlertLabel where
  | HighUpstreamPressure
  | LowDownstreamPressure
  | HighFlowPossibleLeak
  | LowFlowPossibleBlockage
deriving Repr, DecidableEq

/-- An incoming JSON record as display_reading sees it: every key the
function reads with data.get may be absent. -/
structure RecordData where
  location : Option String
  device_id : Option String
  pressure_upstream : Option ℚ
  pressure_downstream : Option ℚ
  flow_rate : Option ℚ
deriving Repr, DecidableEq

/-- The alerts list built by display_reading: data.get with default 0 on
the three measurement keys, then the four independent threshold checks
appending in source order. -/
def alerts (d : RecordData) : List AlertLabel :=
  let up := d.pressure_upstream.getD 0
  let down := d.pressure_downstream.getD 0
  let flow := d.flow_rate.getD 0
  (if up > 90 then [AlertLabel.HighUpstreamPressure] else []) ++
  (if down < 65 then [AlertLabel.LowDownstreamPressure] else []) ++
  (if flow > 60 then [AlertLabel.HighFlowPossibleLeak] else []) ++
  (if flow < 20 then [AlertLabel.LowFlowPossibleBlockage] else [])

/-- The classifier result as a set of labels. -/
def classify (d : RecordData) : Finset AlertLabel := (alerts d).toFinset

/-- The full observable outcome of display_reading: the defaulted
location and device_id (default the string Unknown), the three defaulted
measurements, and the alerts list.  Total: no key is required. -/
def display_reading (d : RecordData) :
    String × String × ℚ × ℚ × ℚ × List AlertLabel :=
  (d.location.getD "Unknown", d.device_id.getD "Unknown",
   d.pressure_upstream.getD 0, d.pressure_downstream.getD 0,
   d.flow_rate.getD 0, alerts d)

/-- One threshold rule of display_reading, indexed by its source
position, evaluated on its own. -/
def ruleFires (d : RecordData) : Fin 4 → Option AlertLabel
  | 0 => if d.pressure_upstream.getD 0 > 90
         then some AlertLabel.HighUpstreamPressure else none
  | 1 => if d.pressure_downstream.getD 0 < 65
         then some AlertLabel.LowDownstreamPressure else none
  | 2 => if d.flow_rate.getD 0 > 60
         then some AlertLabel.HighFlowPossibleLeak else none
  | 3 => if d.flow_rate.getD 0 < 20
         then some AlertLabel.LowFlowPossibleBlockage else none

/-- Evaluate the four rules in an arbitrary order. -/
def classifyInOrder (p : List (Fin 4)) (d : RecordData) : List AlertLabel :=
  p.filterMap (ruleFires d)

/-- View a generated reading as the record the dashboard receives:
every field of the dict is present. -/
def Reading.toData (r : Reading) : RecordData :=
  { location := r.location, device_id := some r.device_id,
    pressure_upstream := some r.pressure_upstream,
    pressure_downstream := some r.pressure_downstream,
    flow_rate := some r.flow_rate }

/-- A concrete incoming record: high upstream pressure, low downstream
pressure, low flow. -/
def recSample : RecordData :=
  { location := none, device_id := none, pressure_upstream := some 95,
    pressure_downstream := some 50, flow_rate := some 10 }

/-- A concrete incoming record with every key absent. -/
def recAllMissing : RecordData :=
  { location := none, device_id := none, pressure_upstream := none,
    pressure_downstream := none, flow_rate := none }

/-- A concrete incoming record missing pressure_downstream and flow_rate
but carrying a high pressure_upstream. -/
def recMissingDownFlow : RecordData :=
  { location := none, device_id := none, pressure_upstream := some 95,
    pressure_downstream := none, flow_rate := none }

/-! Rounding lemmas. -/

lemma floor_le_rhe (z : ℚ) : ⌊z⌋ ≤ round_half_even z := by
  unfold round_half_even
  by_cases htie : Int.fract z = 1 / 2
  · rw [if_pos htie]
    split
    · exact le_refl _
    · omega
  · rw [if_neg htie, round_eq]
    exact Int.floor_le_floor (by linarith)

lemma rhe_le_ceil (z : ℚ) : round_half_even z ≤ ⌈z⌉ := by
  unfold round_half_even
  by_cases htie : Int.fract z = 1 / 2
  · rw [if_pos htie]
    have hz : z = (⌊z⌋ : ℚ) + 1 / 2 := by
      have := Int.fract_add_floor z
      linarith [htie ▸ this]
    have hceil : ⌈z⌉ = ⌊z⌋ + 1 := by
      have h12 : ⌈(1 / 2 : ℚ)⌉ = 1 := by
        rw [Int.ceil_eq_iff]
        norm_num
      have h1 : ⌈(1 / 2 : ℚ) + (⌊z⌋ : ℚ)⌉ = 1 + ⌊z⌋ := by
        rw [Int.ceil_add_int, h12]
      have h2 : z = (1 / 2 : ℚ) + (⌊z⌋ : ℚ) := by linarith [hz]
      have h3 : ⌈z⌉ = ⌈(1 / 2 : ℚ) + (⌊z⌋ : ℚ)⌉ :=
        congrArg (fun x : ℚ => ⌈x⌉) h2
      omega
    rw [hceil]
    split
    · omega
    · omega
  · rw [if_neg htie, round_eq]
    have h1 : z + 1 / 2 < (⌈z⌉ : ℚ) + 1 := by
      have := Int.le_ceil z
      linarith
    have := Int.floor_lt.mpr (show z + 1 / 2 < ((⌈z⌉ + 1 : ℤ) : ℚ) by push_cast; linarith)
    omega

lemma rhe_le (z : ℚ) (n : ℤ) (h : z ≤ (n : ℚ)) : round_half_even z ≤ n :=
  le_trans (rhe_le_ceil z) (Int.ceil_le.mpr h)

lemma le_rhe (z : ℚ) (n : ℤ) (h : (n : ℚ) ≤ z) : n ≤ round_half_even z :=
  le_trans (Int.le_floor.mpr h) (floor_le_rhe z)

lemma lt_rhe (z : ℚ) (n : ℤ) (h : (n : ℚ) + 1 / 2 < z) :
    n + 1 ≤ round_half_even z := by
  rcases le_or_lt ((n : ℚ) + 1) z with hc | hc
  · exact le_rhe z (n + 1) (by push_cast; linarith)
  · have hfl : ⌊z⌋ = n := by
      rw [Int.floor_eq_iff]
      constructor
      · linarith
      · linarith
    have htie : Int.fract z ≠ 1 / 2 := by
      have hfr : Int.fract z = z - (n : ℚ) := by
        rw [Int.fract, hfl]
      rw [hfr]
      intro hcontra
      have : z = (n : ℚ) + 1 / 2 := by linarith
      rw [this] at h
      exact lt_irrefl _ h
    unfold round_half_even
    rw [if_neg htie, round_eq, Int.le_floor]
    push_cast
    linarith

lemma round1_le (x : ℚ) (n : ℤ) (h : 10 * x ≤ (n : ℚ)) :
    round1 x ≤ (n : ℚ) / 10 := by
  unfold round1
  gcongr
  exact_mod_cast rhe_le (10 * x) n h

lemma le_round1 (x : ℚ) (n : ℤ) (h : (n : ℚ) ≤ 10 * x) :
    (n : ℚ) / 10 ≤ round1 x := by
  unfold round1
  gcongr
  exact_mod_cast le_rhe (10 * x) n h

lemma lt_round1 (x : ℚ) (n : ℤ) (h : (n : ℚ) + 1 / 2 < 10 * x) :
    ((n : ℚ) + 1) / 10 ≤ round1 x := by
  unfold round1
  have := lt_rhe (10 * x) n h
  gcongr
  exact_mod_cast this

lemma round1_int (n : ℤ) : round1 ((n : ℚ)) = (n : ℚ) := by
  have h1 : round1 ((n : ℚ)) ≤ ((10 * n : ℤ) : ℚ) / 10 :=
    round1_le _ _ (by push_cast; linarith)
  have h2 : ((10 * n : ℤ) : ℚ) / 10 ≤ round1 ((n : ℚ)) :=
    le_round1 _ _ (by push_cast; linarith)
  have : ((10 * n : ℤ) : ℚ) / 10 = (n : ℚ) := by push_cast; ring
  linarith [h1, h2, this ▸ h1]

/-! Classifier helper lemmas. -/

lemma classify_mem_iff (d : RecordData) (l : AlertLabel) :
    l ∈ classify d ↔
      (l = AlertLabel.HighUpstreamPressure ∧ d.pressure_upstream.getD 0 > 90) ∨
      (l = AlertLabel.LowDownstreamPressure ∧ d.pressure_downstream.getD 0 < 65) ∨
      (l = AlertLabel.HighFlowPossibleLeak ∧ d.flow_rate.getD 0 > 60) ∨
      (l = AlertLabel.LowFlowPossibleBlockage ∧ d.flow_rate.getD 0 < 20) := by
  unfold classify alerts
  simp only [List.mem_toFinset, List.mem_append]
  split_ifs <;> cases l <;> simp_all

lemma classify_empty_iff (d : RecordData) :
    classify d = ∅ ↔
      ¬ d.pressure_upstream.getD 0 > 90 ∧ ¬ d.pressure_downstream.getD 0 < 65 ∧
      ¬ d.flow_rate.getD 0 > 60 ∧ ¬ d.flow_rate.getD 0 < 20 := by
  unfold classify alerts
  rw [List.toFinset_eq_empty_iff]
  dsimp only
  split_ifs <;> simp_all

/-- C1: for every reading record, the classifier returns exactly the set of
labels whose conditions hold, label by label, and the result is empty
precisely when no condition holds (a normal outcome, not an error). -/
theorem C1_classifier_exact (r : Reading) :
    (AlertLabel.HighUpstreamPressure ∈ classify r.toData ↔ r.pressure_upstream > 90) ∧
    (AlertLabel.LowDownstreamPressure ∈ classify r.toData ↔ r.pressure_downstream < 65) ∧
    (AlertLabel.HighFlowPossibleLeak ∈ classify r.toData ↔ r.flow_rate > 60) ∧
    (AlertLabel.LowFlowPossibleBlockage ∈ classify r.toData ↔ r.flow_rate < 20) ∧
    (classify r.toData = ∅ ↔
      ¬ r.pressure_upstream > 90 ∧ ¬ r.pressure_downstream < 65 ∧
      ¬ r.flow_rate > 60 ∧ ¬ r.flow_rate < 20) := by
  refine ⟨?_, ?_, ?_, ?_, ?_⟩
  · rw [classify_mem_iff]
    simp [Reading.toData]
  · rw [classify_mem_iff]
    simp [Reading.toData]
  · rw [classify_mem_iff]
    simp [Reading.toData]
  · rw [classify_mem_iff]
    simp [Reading.toData]
  · rw [classify_empty_iff]
    simp [Reading.toData]

/-- C3: every stuck-scenario reading collapses all three measurement fields
to the single value base plus drawn offset, rounded once to one decimal. -/
theorem C3_stuck_collapse (s : WaterSensor) (ts : String) (u : ℚ) :
    ((s.get_stuck_reading ts u).2).pressure_upstream
        = round1 (s.pressure_upstream_base + u) ∧
    ((s.get_stuck_reading ts u).2).pressure_downstream
        = ((s.get_stuck_reading ts u).2).pressure_upstream ∧
    ((s.get_stuck_reading ts u).2).flow_rate
        = ((s.get_stuck_reading ts u).2).pressure_upstream :=
  ⟨rfl, rfl, rfl⟩

/-- C8: the wire payload of each generator variant, listed key by key:
device_id, timestamp, counter and the three measurements are always
present with string / string / integer / number values, and the location
key (a string) is present exactly in the get_reading variant. -/
theorem C8_wire_payload (s : WaterSensor) (ts : String) (u1 u2 u3 : ℚ) :
    ((s.get_reading ts u1 u2 u3).2).wire =
      [("device_id", JVal.str s.device_id), ("location", JVal.str s.location),
       ("timestamp", JVal.str ts), ("counter", JVal.int (s.count + 1)),
       ("pressure_upstream", JVal.num (round1 (s.pressure_upstream_base + u1))),
       ("pressure_downstream", JVal.num (round1 (s.pressure_downstream_base + u2))),
       ("flow_rate", JVal.num (round1 (s.flow_rate_base + u3)))] ∧
    ((s.get_leak_reading ts u1 u2 u3).2).wire =
      [("device_id", JVal.str s.device_id), ("counter", JVal.int (s.count + 1)),
       ("timestamp", JVal.str ts),
       ("pressure_upstream", JVal.num (round1 (s.pressure_upstream_base + u1))),
       ("pressure_downstream", JVal.num (round1 (s.pressure_downstream_base + u2))),
       ("flow_rate", JVal.num (round1 (s.flow_rate_base + u3)))] ∧
    ((s.get_blockage_reading ts u1 u2 u3).2).wire =
      [("device_id", JVal.str s.device_id), ("counter", JVal.int (s.count + 1)),
       ("timestamp", JVal.str ts),
       ("pressure_upstream", JVal.num (round1 (s.pressure_upstream_base + u1))),
       ("pressure_downstream", JVal.num (round1 (s.pressure_downstream_base + u2))),
       ("flow_rate", JVal.num (round1 (s.flow_rate_base + u3)))] ∧
    ((s.get_stuck_reading ts u1).2).wire =
      [("device_id", JVal.str s.device_id), ("counter", JVal.int (s.count + 1)),
       ("timestamp", JVal.str ts),
       ("pressure_upstream", JVal.num (round1 (s.pressure_upstream_base + u1))),
       ("pressure_downstream", JVal.num (round1 (s.pressure_upstream_base + u1))),
       ("flow_rate", JVal.num (round1 (s.pressure_upstream_base + u1)))] ∧
    (((s.get_reading ts u1 u2 u3).2).wire.map Prod.fst =
      ["device_id", "location", "timestamp", "counter",
       "pressure_upstream", "pressure_downstream", "flow_rate"]) ∧
    (((s.get_leak_reading ts u1 u2 u3).2).wire.map Prod.fst =
      ["device_id", "counter", "timestamp",
       "pressure_upstream", "pressure_downstream", "flow_rate"]) ∧
    (((s.get_blockage_reading ts u1 u2 u3).2).wire.map Prod.fst =
      ["device_id", "counter", "timestamp",
       "pressure_upstream", "pressure_downstream", "flow_rate"]) ∧
    (((s.get_stuck_reading ts u1).2).wire.map Prod.fst =
      ["device_id", "counter", "timestamp",
       "pressure_upstream", "pressure_downstream", "flow_rate"]) :=
  ⟨rfl, rfl, rfl, rfl, rfl, rfl, rfl, rfl⟩

/-! Counter lemmas. -/

lemma generate_step (s : WaterSensor) (sc : Scenario) (ts : String) (u1 u2 u3 : ℚ) :
    (s.generate sc ts u1 u2 u3).1.count = s.count + 1 ∧
    (s.generate sc ts u1 u2 u3).2.counter = s.count + 1 := by
  cases sc <;> exact ⟨rfl, rfl⟩

lemma runSeq_length (s : WaterSensor) (cs : List GenCall) :
    (runSeq s cs).length = cs.length := by
  induction cs generalizing s with
  | nil => rfl
  | cons c cs ih => simp [runSeq, ih]

lemma runSeq_counter (s : WaterSensor) (cs : List GenCall) (i : ℕ)
    (h : i < (runSeq s cs).length) :
    ((runSeq s cs).get ⟨i, h⟩).counter = s.count + i + 1 := by
  induction cs generalizing s i with
  | nil => simp [runSeq] at h
  | cons c cs ih =>
    cases i with
    | zero =>
      have hstep := generate_step s c.scenario c.ts c.u1 c.u2 c.u3
      simpa [runSeq] using hstep.2
    | succ n =>
      have hstep := generate_step s c.scenario c.ts c.u1 c.u2 c.u3
      have hn : n < (runSeq (s.generate c.scenario c.ts c.u1 c.u2 c.u3).1 cs).length := by
        have := runSeq_length (s.generate c.scenario c.ts c.u1 c.u2 c.u3).1 cs
        have h2 : n + 1 < (runSeq s (c :: cs)).length := h
        rw [runSeq_length] at h2
        simp only [List.length_cons] at h2
        omega
      have hih := ih (s.generate c.scenario c.ts c.u1 c.u2 c.u3).1 n hn
      rw [hstep.1] at hih
      have hcast : ((runSeq s (c :: cs)).get ⟨n + 1, h⟩).counter
          = ((runSeq (s.generate c.scenario c.ts c.u1 c.u2 c.u3).1 cs).get ⟨n, hn⟩).counter := rfl
      rw [hcast, hih]
      omega

/-- C2: the reading counter starts at 0 at construction, every generation
variant increments it by exactly 1 and stamps the new value, the i-th
reading (0-based) of any run from a fresh sensor carries counter i + 1
(so counters count 1, 2, 3, ... from the first call), and equal counters
identify equal positions in the run. -/
theorem C2_counter_invariant (dev loc : String) (cs : List GenCall) :
    (WaterSensor.init dev loc).count = 0 ∧
    (∀ (s : WaterSensor) (sc : Scenario) (ts : String) (u1 u2 u3 : ℚ),
        (s.generate sc ts u1 u2 u3).1.count = s.count + 1 ∧
        (s.generate sc ts u1 u2 u3).2.counter = s.count + 1) ∧
    (∀ (i : ℕ) (h : i < (runSeq (WaterSensor.init dev loc) cs).length),
        ((runSeq (WaterSensor.init dev loc) cs).get ⟨i, h⟩).counter = i + 1) ∧
    (∀ (i j : ℕ) (hi : i < (runSeq (WaterSensor.init dev loc) cs).length)
        (hj : j < (runSeq (WaterSensor.init dev loc) cs).length),
        ((runSeq (WaterSensor.init dev loc) cs).get ⟨i, hi⟩).counter =
          ((runSeq (WaterSensor.init dev loc) cs).get ⟨j, hj⟩).counter → i = j) := by
  refine ⟨rfl, generate_step, ?_, ?_⟩
  · intro i h
    have := runSeq_counter (WaterSensor.init dev loc) cs i h
    simpa [WaterSensor.init] using this
  · intro i j hi hj heq
    rw [runSeq_counter, runSeq_counter] at heq
    omega

/-- C2 witness: a concrete two-call run from a fresh sensor; the reading
at position 1 carries counter 2. -/
theorem C2_counter_invariant_witness :
    1 < (runSeq (WaterSensor.init "GM-HYDROLOGIC-01" "main-building")
          [⟨Scenario.normal, "t1", 0, 0, 0⟩, ⟨Scenario.leak, "t2", 0, 0, 50⟩]).length ∧
    ((runSeq (WaterSensor.init "GM-HYDROLOGIC-01" "main-building")
          [⟨Scenario.normal, "t1", 0, 0, 0⟩, ⟨Scenario.leak, "t2", 0, 0, 50⟩]).get
        ⟨1, by rw [runSeq_length]; norm_num⟩).counter = 2 := by
  refine ⟨by rw [runSeq_length]; norm_num, ?_⟩
  have := (C2_counter_invariant "GM-HYDROLOGIC-01" "main-building"
      [⟨Scenario.normal, "t1", 0, 0, 0⟩, ⟨Scenario.leak, "t2", 0, 0, 50⟩]).2.2.1 1
      (by rw [runSeq_length]; norm_num)
  simpa using this

/-- C5: every normal-scenario reading from the constructed sensor has
flow_rate within 3 of the flow baseline and both pressures within 2 of
their baselines, the bounds holding after rounding to one decimal. -/
theorem C5_normal_bounds (dev loc ts : String) (uU uD uF : ℚ)
    (hU1 : -2 ≤ uU) (hU2 : uU ≤ 2) (hD1 : -2 ≤ uD) (hD2 : uD ≤ 2)
    (hF1 : -3 ≤ uF) (hF2 : uF ≤ 3) :
    ((WaterSensor.init dev loc).flow_rate_base - 3
        ≤ ((WaterSensor.init dev loc).get_reading ts uU uD uF).2.flow_rate ∧
      ((WaterSensor.init dev loc).get_reading ts uU uD uF).2.flow_rate
        ≤ (WaterSensor.init dev loc).flow_rate_base + 3) ∧
    ((WaterSensor.init dev loc).pressure_upstream_base - 2
        ≤ ((WaterSensor.init dev loc).get_reading ts uU uD uF).2.pressure_upstream ∧
      ((WaterSensor.init dev loc).get_reading ts uU uD uF).2.pressure_upstream
        ≤ (WaterSensor.init dev loc).pressure_upstream_base + 2) ∧
    ((WaterSensor.init dev loc).pressure_downstream_base - 2
        ≤ ((WaterSensor.init dev loc).get_reading ts uU uD uF).2.pressure_downstream ∧
      ((WaterSensor.init dev loc).get_reading ts uU uD uF).2.pressure_downstream
        ≤ (WaterSensor.init dev loc).pressure_downstream_base + 2) := by
  refine ⟨⟨?_, ?_⟩, ⟨?_, ?_⟩, ⟨?_, ?_⟩⟩
  · show (40 : ℚ) - 3 ≤ round1 ((40 : ℚ) + uF)
    have := le_round1 ((40 : ℚ) + uF) 370 (by push_cast; linarith)
    norm_num at this
    linarith
  · show round1 ((40 : ℚ) + uF) ≤ (40 : ℚ) + 3
    have := round1_le ((40 : ℚ) + uF) 430 (by push_cast; linarith)
    norm_num at this
    linarith
  · show (82 : ℚ) - 2 ≤ round1 ((82 : ℚ) + uU)
    have := le_round1 ((82 : ℚ) + uU) 800 (by push_cast; linarith)
    norm_num at this
    linarith
  · show round1 ((82 : ℚ) + uU) ≤ (82 : ℚ) + 2
    have := round1_le ((82 : ℚ) + uU) 840 (by push_cast; linarith)
    norm_num at this
    linarith
  · show (76 : ℚ) - 2 ≤ round1 ((76 : ℚ) + uD)
    have := le_round1 ((76 : ℚ) + uD) 740 (by push_cast; linarith)
    norm_num at this
    linarith
  · show round1 ((76 : ℚ) + uD) ≤ (76 : ℚ) + 2
    have := round1_le ((76 : ℚ) + uD) 780 (by push_cast; linarith)
    norm_num at this
    linarith

/-- C5 witness: concrete offsets 1, -1, 2 satisfy the uniform ranges and
the bounds hold for the produced reading. -/
theorem C5_normal_bounds_witness :
    ((-2 : ℚ) ≤ 1 ∧ (1 : ℚ) ≤ 2 ∧ (-2 : ℚ) ≤ -1 ∧ (-1 : ℚ) ≤ 2 ∧
      (-3 : ℚ) ≤ 2 ∧ (2 : ℚ) ≤ 3) ∧
    (((WaterSensor.init "GM-HYDROLOGIC-01" "main-building").flow_rate_base - 3
        ≤ ((WaterSensor.init "GM-HYDROLOGIC-01" "main-building").get_reading
            "t" 1 (-1) 2).2.flow_rate ∧
      ((WaterSensor.init "GM-HYDROLOGIC-01" "main-building").get_reading
            "t" 1 (-1) 2).2.flow_rate
        ≤ (WaterSensor.init "GM-HYDROLOGIC-01" "main-building").flow_rate_base + 3) ∧
    ((WaterSensor.init "GM-HYDROLOGIC-01" "main-building").pressure_upstream_base - 2
        ≤ ((WaterSensor.init "GM-HYDROLOGIC-01" "main-building").get_reading
            "t" 1 (-1) 2).2.pressure_upstream ∧
      ((WaterSensor.init "GM-HYDROLOGIC-01" "main-building").get_reading
            "t" 1 (-1) 2).2.pressure_upstream
        ≤ (WaterSensor.init "GM-HYDROLOGIC-01" "main-building").pressure_upstream_base + 2) ∧
    ((WaterSensor.init "GM-HYDROLOGIC-01" "main-building").pressure_downstream_base - 2
        ≤ ((WaterSensor.init "GM-HYDROLOGIC-01" "main-building").get_reading
            "t" 1 (-1) 2).2.pressure_downstream ∧
      ((WaterSensor.init "GM-HYDROLOGIC-01" "main-building").get_reading
            "t" 1 (-1) 2).2.pressure_downstream
        ≤ (WaterSensor.init "GM-HYDROLOGIC-01" "main-building").pressure_downstream_base + 2)) :=
  ⟨by norm_num,
   C5_normal_bounds "GM-HYDROLOGIC-01" "main-building" "t" 1 (-1) 2
     (by norm_num) (by norm_num) (by norm_num) (by norm_num) (by norm_num) (by norm_num)⟩

/-- C9: every stuck-scenario reading from the constructed sensor (upstream
baseline 82.0) has flow_rate in the interval 80 to 84, so its
classification always contains HighFlowPossibleLeak and never contains
LowFlowPossibleBlockage. -/
theorem C9_stuck_surfaces_as_leak (dev loc ts : String) (u : ℚ)
    (h1 : -2 ≤ u) (h2 : u ≤ 2) :
    (80 ≤ ((WaterSensor.init dev loc).get_stuck_reading ts u).2.flow_rate ∧
      ((WaterSensor.init dev loc).get_stuck_reading ts u).2.flow_rate ≤ 84) ∧
    AlertLabel.HighFlowPossibleLeak ∈
      classify (((WaterSensor.init dev loc).get_stuck_reading ts u).2).toData ∧
    AlertLabel.LowFlowPossibleBlockage ∉
      classify (((WaterSensor.init dev loc).get_stuck_reading ts u).2).toData := by
  have hlo : (80 : ℚ) ≤ round1 ((82 : ℚ) + u) := by
    have := le_round1 ((82 : ℚ) + u) 800 (by push_cast; linarith)
    norm_num at this
    linarith
  have hhi : round1 ((82 : ℚ) + u) ≤ 84 := by
    have := round1_le ((82 : ℚ) + u) 840 (by push_cast; linarith)
    norm_num at this
    linarith
  refine ⟨⟨hlo, hhi⟩, ?_, ?_⟩
  · rw [classify_mem_iff]
    right; right; left
    refine ⟨rfl, ?_⟩
    show round1 ((82 : ℚ) + u) > 60
    linarith
  · rw [classify_mem_iff]
    rintro (⟨hl, _⟩ | ⟨hl, _⟩ | ⟨hl, _⟩ | ⟨_, hflow⟩)
    · exact AlertLabel.noConfusion hl
    · exact AlertLabel.noConfusion hl
    · exact AlertLabel.noConfusion hl
    · have hf : round1 ((82 : ℚ) + u) < 20 := hflow
      linarith

/-- C9 witness: offset 0 is in the uniform range and the conclusion holds
for the resulting stuck reading. -/
theorem C9_stuck_surfaces_as_leak_witness :
    ((-2 : ℚ) ≤ 0 ∧ (0 : ℚ) ≤ 2) ∧
    ((80 ≤ ((WaterSensor.init "GM-HYDROLOGIC-02" "pool-wing").get_stuck_reading
          "t" 0).2.flow_rate ∧
      ((WaterSensor.init "GM-HYDROLOGIC-02" "pool-wing").get_stuck_reading
          "t" 0).2.flow_rate ≤ 84) ∧
    AlertLabel.HighFlowPossibleLeak ∈
      classify (((WaterSensor.init "GM-HYDROLOGIC-02" "pool-wing").get_stuck_reading
          "t" 0).2).toData ∧
    AlertLabel.LowFlowPossibleBlockage ∉
      classify (((WaterSensor.init "GM-HYDROLOGIC-02" "pool-wing").get_stuck_reading
          "t" 0).2).toData) :=
  ⟨by norm_num,
   C9_stuck_surfaces_as_leak "GM-HYDROLOGIC-02" "pool-wing" "t" 0
     (by norm_num) (by norm_num)⟩

/-- C6: a blockage reading from the profile bases 82.0 / 76.0 / 40.0 with
the upstream offset fixed at 14 and the downstream offset fixed at -35
has pressures 96.0 and 41.0, flow within 3 of 40.0, and classifies to
exactly the set containing HighUpstreamPressure and LowDownstreamPressure. -/
theorem C6_blockage_end_to_end (dev loc ts : String) (uF : ℚ)
    (h1 : -3 ≤ uF) (h2 : uF ≤ 3) :
    ((WaterSensor.init dev loc).get_blockage_reading ts 14 (-35) uF).2.pressure_upstream
      = 96 ∧
    ((WaterSensor.init dev loc).get_blockage_reading ts 14 (-35) uF).2.pressure_downstream
      = 41 ∧
    (37 ≤ ((WaterSensor.init dev loc).get_blockage_reading ts 14 (-35) uF).2.flow_rate ∧
      ((WaterSensor.init dev loc).get_blockage_reading ts 14 (-35) uF).2.flow_rate ≤ 43) ∧
    classify (((WaterSensor.init dev loc).get_blockage_reading ts 14 (-35) uF).2).toData
      = {AlertLabel.HighUpstreamPressure, AlertLabel.LowDownstreamPressure} := by
  have hup : round1 ((82 : ℚ) + 14) = 96 := by
    have h : ((82 : ℚ) + 14) = ((96 : ℤ) : ℚ) := by norm_num
    rw [h, round1_int]
    norm_num
  have hdown : round1 ((76 : ℚ) + (-35)) = 41 := by
    have h : ((76 : ℚ) + (-35)) = ((41 : ℤ) : ℚ) := by norm_num
    rw [h, round1_int]
    norm_num
  have hflo : (37 : ℚ) ≤ round1 ((40 : ℚ) + uF) := by
    have := le_round1 ((40 : ℚ) + uF) 370 (by push_cast; linarith)
    norm_num at this
    linarith
  have hfhi : round1 ((40 : ℚ) + uF) ≤ 43 := by
    have := round1_le ((40 : ℚ) + uF) 430 (by push_cast; linarith)
    norm_num at this
    linarith
  refine ⟨hup, hdown, ⟨hflo, hfhi⟩, ?_⟩
  have eup : (((WaterSensor.init dev loc).get_blockage_reading ts 14 (-35)
      uF).2).toData.pressure_upstream.getD 0 = 96 := hup
  have edown : (((WaterSensor.init dev loc).get_blockage_reading ts 14 (-35)
      uF).2).toData.pressure_downstream.getD 0 = 41 := hdown
  apply Finset.ext
  intro l
  rw [classify_mem_iff]
  constructor
  · rintro (⟨hl, _⟩ | ⟨hl, _⟩ | ⟨_, hc⟩ | ⟨_, hc⟩)
    · rw [hl]
      simp
    · rw [hl]
      simp
    · exfalso
      have hc2 : round1 ((40 : ℚ) + uF) > 60 := hc
      linarith
    · exfalso
      have hc2 : round1 ((40 : ℚ) + uF) < 20 := hc
      linarith
  · intro hl
    rcases Finset.mem_insert.mp hl with hl | hl
    · left
      refine ⟨hl, ?_⟩
      rw [eup]
      norm_num
    · right; left
      refine ⟨Finset.mem_singleton.mp hl, ?_⟩
      rw [edown]
      norm_num

/-- C6 witness: flow offset 0 is in the uniform range and the conclusion
holds for the resulting blockage reading. -/
theorem C6_blockage_end_to_end_witness :
    ((-3 : ℚ) ≤ 0 ∧ (0 : ℚ) ≤ 3) ∧
    (((WaterSensor.init "GM-HYDROLOGIC-03" "main-kitchen").get_blockage_reading
        "t" 14 (-35) 0).2.pressure_upstream = 96 ∧
    ((WaterSensor.init "GM-HYDROLOGIC-03" "main-kitchen").get_blockage_reading
        "t" 14 (-35) 0).2.pressure_downstream = 41 ∧
    (37 ≤ ((WaterSensor.init "GM-HYDROLOGIC-03" "main-kitchen").get_blockage_reading
        "t" 14 (-35) 0).2.flow_rate ∧
      ((WaterSensor.init "GM-HYDROLOGIC-03" "main-kitchen").get_blockage_reading
        "t" 14 (-35) 0).2.flow_rate ≤ 43) ∧
    classify (((WaterSensor.init "GM-HYDROLOGIC-03" "main-kitchen").get_blockage_reading
        "t" 14 (-35) 0).2).toData
      = {AlertLabel.HighUpstreamPressure, AlertLabel.LowDownstreamPressure}) :=
  ⟨by norm_num,
   C6_blockage_end_to_end "GM-HYDROLOGIC-03" "main-kitchen" "t" 0
     (by norm_num) (by norm_num)⟩

/-- C7: the classifier is pure and deterministic (equal inputs give equal
label sets) and its result as a set does not depend on the order in
which the four rules are evaluated. -/
theorem C7_classifier_pure_order_independent (d d2 : RecordData) (p : List (Fin 4))
    (hd : d = d2) (hp : p.Perm [0, 1, 2, 3]) :
    classify d = classify d2 ∧
    (classifyInOrder p d).toFinset = classify d := by
  constructor
  · rw [hd]
  · have hperm : (classifyInOrder p d).Perm (classifyInOrder [0, 1, 2, 3] d) :=
      hp.filterMap (ruleFires d)
    rw [List.toFinset_eq_of_perm _ _ hperm]
    unfold classifyInOrder ruleFires classify alerts
    dsimp only
    simp only [List.filterMap_cons, List.filterMap_nil]
    split_ifs <;> simp

/-- C7 witness: a concrete record and the reversed rule order, a
permutation of the source order, give the same label set. -/
theorem C7_classifier_pure_order_independent_witness :
    (recSample = recSample ∧
      (([3, 2, 1, 0] : List (Fin 4)).Perm [0, 1, 2, 3])) ∧
    (classify recSample = classify recSample ∧
      (classifyInOrder [3, 2, 1, 0] recSample).toFinset = classify recSample) :=
  ⟨⟨rfl, by decide⟩,
   C7_classifier_pure_order_independent recSample recSample [3, 2, 1, 0] rfl (by decide)⟩

/-- C4 counterexample: a reading with base flow 40 and flow offset exactly
20 (which satisfies the claimed "offset at least 20") has flow 60.0, and
the strict threshold flow greater than 60 does not fire, so the claimed
HighFlowPossibleLeak label is absent. -/
theorem C4_counterexample :
    AlertLabel.HighFlowPossibleLeak ∉
      classify (((WaterSensor.init "GM-HYDROLOGIC-01" "main-building").get_leak_reading
        "t" 0 0 20).2).toData := by
  rw [classify_mem_iff]
  rintro (⟨hl, _⟩ | ⟨hl, _⟩ | ⟨_, hflow⟩ | ⟨hl, _⟩)
  · exact AlertLabel.noConfusion hl
  · exact AlertLabel.noConfusion hl
  · have hf : round1 ((40 : ℚ) + 20) = 60 := by
      have h : ((40 : ℚ) + 20) = ((60 : ℤ) : ℚ) := by norm_num
      rw [h, round1_int]
      norm_num
    have hflow2 : round1 ((40 : ℚ) + 20) > 60 := hflow
    rw [hf] at hflow2
    exact lt_irrefl _ hflow2
  · exact AlertLabel.noConfusion hl

/-- C4 amended: every leak-scenario reading has flow_rate minus base_flow
in the interval 40 to 80; and a leak-variant reading with base flow 40
and any flow offset strictly greater than 20.05 (so that the value
rounded to one decimal exceeds the strict threshold 60) is classified
with HighFlowPossibleLeak. -/
theorem C4_leak_range_and_label (dev loc ts : String) (u1 u2 uF vF : ℚ)
    (h1 : 40 ≤ uF) (h2 : uF ≤ 80) (hv : (20.05 : ℚ) < vF) :
    (40 ≤ ((WaterSensor.init dev loc).get_leak_reading ts u1 u2 uF).2.flow_rate
            - (WaterSensor.init dev loc).flow_rate_base ∧
      ((WaterSensor.init dev loc).get_leak_reading ts u1 u2 uF).2.flow_rate
            - (WaterSensor.init dev loc).flow_rate_base ≤ 80) ∧
    AlertLabel.HighFlowPossibleLeak ∈
      classify (((WaterSensor.init dev loc).get_leak_reading ts u1 u2 vF).2).toData := by
  refine ⟨⟨?_, ?_⟩, ?_⟩
  · show (40 : ℚ) ≤ round1 ((40 : ℚ) + uF) - 40
    have := le_round1 ((40 : ℚ) + uF) 800 (by push_cast; linarith)
    norm_num at this
    linarith
  · show round1 ((40 : ℚ) + uF) - 40 ≤ 80
    have := round1_le ((40 : ℚ) + uF) 1200 (by push_cast; linarith)
    norm_num at this
    linarith
  · rw [classify_mem_iff]
    right; right; left
    refine ⟨rfl, ?_⟩
    show round1 ((40 : ℚ) + vF) > 60
    have := lt_round1 ((40 : ℚ) + vF) 600 (by push_cast; linarith)
    norm_num at this
    linarith

/-- C4 witness: flow offsets 50 (in the leak range) and 50 (above 20.05)
make both parts concrete. -/
theorem C4_leak_range_and_label_witness :
    ((40 : ℚ) ≤ 50 ∧ (50 : ℚ) ≤ 80 ∧ (20.05 : ℚ) < 50) ∧
    ((40 ≤ ((WaterSensor.init "GM-HYDROLOGIC-01" "main-building").get_leak_reading
          "t" 0 0 50).2.flow_rate
            - (WaterSensor.init "GM-HYDROLOGIC-01" "main-building").flow_rate_base ∧
      ((WaterSensor.init "GM-HYDROLOGIC-01" "main-building").get_leak_reading
          "t" 0 0 50).2.flow_rate
            - (WaterSensor.init "GM-HYDROLOGIC-01" "main-building").flow_rate_base ≤ 80) ∧
    AlertLabel.HighFlowPossibleLeak ∈
      classify (((WaterSensor.init "GM-HYDROLOGIC-01" "main-building").get_leak_reading
          "t" 0 0 50).2).toData) :=
  ⟨by norm_num,
   C4_leak_range_and_label "GM-HYDROLOGIC-01" "main-building" "t" 0 0 50 50
     (by norm_num) (by norm_num) (by norm_num)⟩

/-- C10 counterexample: a record missing pressure_downstream and flow_rate
but carrying pressure_upstream 95 is classified with HighUpstreamPressure
as well, so its label set is not exactly the claimed two-element set. -/
theorem C10_counterexample :
    classify recMissingDownFlow ≠
      ({AlertLabel.LowDownstreamPressure, AlertLabel.LowFlowPossibleBlockage} :
        Finset AlertLabel) := by
  intro hcontra
  have hmem : AlertLabel.HighUpstreamPressure ∈ classify recMissingDownFlow := by
    rw [classify_mem_iff]
    left
    exact ⟨rfl, show (95 : ℚ) > 90 by norm_num⟩
  rw [hcontra] at hmem
  simp at hmem

/-- C10 amended: display_reading is total on records with absent keys,
defaulting absent numeric fields to 0 and absent strings to Unknown; a
record missing both pressure_downstream and flow_rate whose (defaulted)
pressure_upstream is at most 90 is classified with exactly the set
containing LowDownstreamPressure and LowFlowPossibleBlockage. -/
theorem C10_missing_keys_default (d : RecordData)
    (hdown : d.pressure_downstream = none) (hflow : d.flow_rate = none)
    (hup : d.pressure_upstream.getD 0 ≤ 90) :
    display_reading d =
      (d.location.getD "Unknown", d.device_id.getD "Unknown",
       d.pressure_upstream.getD 0, 0, 0, alerts d) ∧
    classify d = {AlertLabel.LowDownstreamPressure, AlertLabel.LowFlowPossibleBlockage} := by
  constructor
  · unfold display_reading
    rw [hdown, hflow]
    rfl
  · apply Finset.ext
    intro l
    rw [classify_mem_iff, hdown, hflow]
    constructor
    · rintro (⟨_, hc⟩ | ⟨hl, _⟩ | ⟨_, hc⟩ | ⟨hl, _⟩)
      · exact absurd hc (not_lt.mpr hup)
      · rw [hl]
        simp
      · exact absurd (show ((0 : ℚ) > 60) from hc) (by norm_num)
      · rw [hl]
        simp
    · intro hl
      rcases Finset.mem_insert.mp hl with hl | hl
      · right; left
        exact ⟨hl, show ((0 : ℚ) < 65) by norm_num⟩
      · right; right; right
        exact ⟨Finset.mem_singleton.mp hl, show ((0 : ℚ) < 20) by norm_num⟩

/-- C10 witness: the record with every key absent satisfies the
hypotheses and is displayed with defaults and classified with the two
low alerts. -/
theorem C10_missing_keys_default_witness :
    (recAllMissing.pressure_downstream = none ∧
      recAllMissing.flow_rate = none ∧
      recAllMissing.pressure_upstream.getD 0 ≤ 90) ∧
    (display_reading recAllMissing =
      (recAllMissing.location.getD "Unknown", recAllMissing.device_id.getD "Unknown",
       recAllMissing.pressure_upstream.getD 0, 0, 0, alerts recAllMissing) ∧
    classify recAllMissing
      = {AlertLabel.LowDownstreamPressure, AlertLabel.LowFlowPossibleBlockage}) :=
  ⟨⟨rfl, rfl, show ((0 : ℚ) ≤ 90) by norm_num⟩,
   C10_missing_keys_default recAllMissing rfl rfl (show ((0 : ℚ) ≤ 90) by norm_num)⟩

end Hydroficient
